import Mathlib

/-!
# Reservation lifecycle and seat-inventory engine: a shallow embedding

This file embeds the reservation handlers of the mashirotheater backend
(Lambda handlers over a DynamoDB store) as pure Lean functions over an
explicit store value, and proves the specified properties about them.

Conventions of the embedding:
* JavaScript numbers that may be `undefined` or `NaN` are modelled as
  `Option Int` (`JNum`); arithmetic is strict in `none` and the comparison
  operators return `false` when either side is not a real number, exactly as
  `<`/`<=` behave on `undefined`/`NaN` in JavaScript.
* ISO-8601 timestamp strings compare lexicographically in the code, which for
  well-formed timestamps coincides with chronological order, so timestamps are
  modelled as natural numbers (milliseconds).
* DynamoDB tables are lists of records; `GetCommand` by key is `List.find?`,
  a `Query`+`Filter` is `List.filter`, an `UpdateCommand` is a `List.map`
  touching the matching key, and a conditional update additionally tests the
  stated precondition on the current record.
* `createHash("sha256")` hex digests are embedded by an executable SHA-256
  over byte lists; all strings hashed in the theorems are ASCII, for which
  code points and UTF-8 bytes agree.
-/

set_option maxRecDepth 100000

/-- A JavaScript number that may be `undefined` or `NaN`: `none` stands for
"not an actual number" and is absorbing for arithmetic. -/
abbrev JNum := Option Int

/-- JavaScript `+` on possibly-undefined numbers: `undefined`/`NaN` poisons. -/
def jadd (a b : JNum) : JNum :=
  match a, b with
  | some x, some y => some (x + y)
  | _, _ => none

/-- JavaScript `-` on possibly-undefined numbers. -/
def jsub (a b : JNum) : JNum :=
  match a, b with
  | some x, some y => some (x - y)
  | _, _ => none

/-- JavaScript `<`: comparisons against `undefined`/`NaN` are `false`. -/
def jlt (a b : JNum) : Bool :=
  match a, b with
  | some x, some y => decide (x < y)
  | _, _ => false

/-- JavaScript `<=`: comparisons against `undefined`/`NaN` are `false`. -/
def jle (a b : JNum) : Bool :=
  match a, b with
  | some x, some y => decide (x ≤ y)
  | _, _ => false

/-- `Array.prototype.reduce((total, x) => total + x, 0)` over seat counts. -/
def jsum (l : List JNum) : JNum := l.foldl jadd (some 0)

/-- JavaScript `Math.max(0, x)`; `Math.max(0, NaN)` is `NaN`. -/
def jmax0 (a : JNum) : JNum :=
  match a with
  | some x => some (max 0 x)
  | none => none

/-! ## SHA-256 (`createHash("sha256")` … `digest("hex")`)

An executable big-endian SHA-256 over lists of byte values, used to embed the
confirmation and cancellation tokens the handlers compute with node's
`crypto.createHash`. -/

/-- Truncate to a 32-bit word. -/
def w32 (n : Nat) : Nat := n % 4294967296

/-- Right-rotation of a 32-bit word. -/
def rotr32 (x n : Nat) : Nat := w32 ((x >>> n) ||| (x <<< (32 - n)))

/-- Group bytes into big-endian 32-bit words. -/
def bytesToWords : List Nat → List Nat
  | a :: b :: c :: d :: rest =>
    (a * 16777216 + b * 65536 + c * 256 + d) :: bytesToWords rest
  | _ => []

/-- Big-endian 8-byte encoding of the bit length. -/
def beBytes8 (n : Nat) : List Nat :=
  [(n >>> 56) % 256, (n >>> 48) % 256, (n >>> 40) % 256, (n >>> 32) % 256,
   (n >>> 24) % 256, (n >>> 16) % 256, (n >>> 8) % 256, n % 256]

/-- SHA-256 padding: `0x80`, zeros to 56 mod 64, then the bit length. -/
def sha256Pad (msg : List Nat) : List Nat :=
  let len := msg.length
  let zeros := (119 - len % 64) % 64
  msg ++ [128] ++ List.replicate zeros 0 ++ beBytes8 (8 * len)

/-- The 64 SHA-256 round constants. -/
def sha256K : Array Nat :=
  #[
    1116352408, 1899447441, 3049323471, 3921009573, 961987163,
    1508970993, 2453635748, 2870763221, 3624381080, 310598401,
    607225278, 1426881987, 1925078388, 2162078206, 2614888103,
    3248222580, 3835390401, 4022224774, 264347078, 604807628,
    770255983, 1249150122, 1555081692, 1996064986, 2554220882,
    2821834349, 2952996808, 3210313671, 3336571891, 3584528711,
    113926993, 338241895, 666307205, 773529912, 1294757372,
    1396182291, 1695183700, 1986661051, 2177026350, 2456956037,
    2730485921, 2820302411, 3259730800, 3345764771, 3516065817,
    3600352804, 4094571909, 275423344, 430227734, 506948616,
    659060556, 883997877, 958139571, 1322822218, 1537002063,
    1747873779, 1955562222, 2024104815, 2227730452, 2361852424,
    2428436474, 2756734187, 3204031479, 3329325298]


/-- The SHA-256 initial hash value. -/
def sha256H0 : List Nat :=
  [
    1779033703, 3144134277, 1013904242, 2773480762,
    1359893119, 2600822924, 528734635, 1541459225]


/-- Expand a 16-word block to the 64-word message schedule. -/
def sha256Schedule (block : Array Nat) : Array Nat :=
  (List.range 48).foldl
    (fun w t =>
      let i := t + 16
      let x15 := w.getD (i - 15) 0
      let x2 := w.getD (i - 2) 0
      let s0 := rotr32 x15 7 ^^^ rotr32 x15 18 ^^^ (x15 >>> 3)
      let s1 := rotr32 x2 17 ^^^ rotr32 x2 19 ^^^ (x2 >>> 10)
      w.push (w32 (w.getD (i - 16) 0 + s0 + w.getD (i - 7) 0 + s1)))
    block

/-- One SHA-256 compression step over a 64-byte block. -/
def sha256Compress (h : List Nat) (block : List Nat) : List Nat :=
  let w := sha256Schedule (bytesToWords block).toArray
  let st0 := h.toArray
  let st :=
    (List.range 64).foldl
      (fun (st : Array Nat) t =>
        let a := st.getD 0 0
        let b := st.getD 1 0
        let c := st.getD 2 0
        let d := st.getD 3 0
        let e := st.getD 4 0
        let f := st.getD 5 0
        let g := st.getD 6 0
        let hh := st.getD 7 0
        let s1 := rotr32 e 6 ^^^ rotr32 e 11 ^^^ rotr32 e 25
        let ch := (e &&& f) ^^^ ((e ^^^ 4294967295) &&& g)
        let temp1 := w32 (hh + s1 + ch + sha256K.getD t 0 + w.getD t 0)
        let s0 := rotr32 a 2 ^^^ rotr32 a 13 ^^^ rotr32 a 22
        let maj := (a &&& b) ^^^ (a &&& c) ^^^ (b &&& c)
        let temp2 := w32 (s0 + maj)
        #[w32 (temp1 + temp2), a, b, c, w32 (d + temp1), e, f, g])
      st0
  (List.range 8).map (fun i => w32 (h.getD i 0 + st.getD i 0))

/-- SHA-256 of a byte list, as the eight 32-bit words of the digest. -/
def sha256Words (msg : List Nat) : List Nat :=
  let padded := sha256Pad msg
  let nBlocks := padded.length / 64
  (List.range nBlocks).foldl
    (fun h i => sha256Compress h ((padded.drop (64 * i)).take 64)) sha256H0

/-- A nibble as a lowercase hex character. -/
def hexChar (n : Nat) : Char :=
  if n < 10 then Char.ofNat (48 + n) else Char.ofNat (87 + n)

/-- A 32-bit word as eight hex characters. -/
def hex8 (n : Nat) : String :=
  String.mk ((List.range 8).map (fun i => hexChar ((n >>> (28 - 4 * i)) % 16)))

/-- The byte values of an ASCII string (code points below 0x80, where UTF-8
bytes and code points agree; every string hashed by the handlers' token
computations in this development is ASCII). -/
def asciiBytes (s : String) : List Nat := s.data.map Char.toNat

/-- `createHash("sha256").update(s).digest("hex")` for an ASCII string. -/
def sha256HexAscii (s : String) : String :=
  String.join ((sha256Words (asciiBytes s)).map hex8)

/-- Big-endian bytes of a word list (a digest as a byte string). -/
def wordsToBytes (ws : List Nat) : List Nat :=
  (ws.map (fun n => [(n >>> 24) % 256, (n >>> 16) % 256, (n >>> 8) % 256, n % 256])).flatten

/-- RFC-2104 HMAC-SHA256, the construction the specification's words
`hex HMAC-SHA256` denote, written here only to compare against the token the
code actually computes (a plain SHA-256 digest of a concatenation).  The key
is the signing secret, the message the remaining concatenated material. -/
def hmacSha256Words (key msg : List Nat) : List Nat :=
  let k0 := if key.length > 64 then wordsToBytes (sha256Words key) else key
  let kp := k0 ++ List.replicate (64 - k0.length) 0
  let ipadKey := kp.map (fun b => b ^^^ 54)
  let opadKey := kp.map (fun b => b ^^^ 92)
  sha256Words (opadKey ++ wordsToBytes (sha256Words (ipadKey ++ msg)))

/-- Hex HMAC-SHA256 of ASCII strings (specification's construction). -/
def hmacSha256HexAscii (key msg : String) : String :=
  String.join ((hmacSha256Words (asciiBytes key) (asciiBytes msg)).map hex8)

/-! ## Data model

The four DynamoDB tables (`serverless.yml`) as record lists. -/

/-- Values of the `status` field of a Reservation record. -/
inductive RStatus where
  | pending
  | confirmed
  | canceled
  | expired
deriving DecidableEq, Repr

/-- A record of the Reservations table. -/
structure Reservation where
  id : String
  performanceId : String
  scheduleId : String
  name : String
  email : String
  reservedSeats : JNum
  notes : Option String
  confirmationCode : String
  status : RStatus
  createdAt : Nat
  updatedAt : Nat
deriving DecidableEq, Repr

/-- A record of the Schedules table. -/
structure Schedule where
  performanceId : String
  id : String
  date : String
  time : String
  totalSeats : Int
  entryUrl : Option String
deriving DecidableEq, Repr

/-- A record of the Performances table. -/
structure Performance where
  id : String
  title : String
  reservationStartTime : Nat
  maxReservations : JNum
  adminUuid : String
deriving DecidableEq, Repr

/-- A record of the Attendees table. -/
structure Attendee where
  id : String
  reservationId : String
  performanceId : String
  scheduleId : String
  name : String
  checkedIn : Bool
  createdAt : Nat
  notes : String
deriving DecidableEq, Repr

/-- The persistent store: the four tables. -/
structure Store where
  performances : List Performance
  schedules : List Schedule
  reservations : List Reservation
  attendees : List Attendee
deriving DecidableEq, Repr

/-- `GetCommand` on the Reservations table by primary key `id`. -/
def getReservation (store : Store) (rid : String) : Option Reservation :=
  store.reservations.find? (fun r => decide (r.id = rid))

/-- `GetCommand` on the Schedules table by key `(performanceId, id)`. -/
def findSchedule (store : Store) (pid sid : String) : Option Schedule :=
  store.schedules.find? (fun s => decide (s.performanceId = pid ∧ s.id = sid))

/-- `GetCommand` on the Performances table by primary key `id`. -/
def findPerformance (store : Store) (pid : String) : Option Performance :=
  store.performances.find? (fun p => decide (p.id = pid))

/-- `updateReservationStatus`: unconditional `UpdateCommand` setting `status`
and `updatedAt` on the record with the given key. -/
def updateReservationStatus (resvs : List Reservation) (rid : String)
    (st : RStatus) (now : Nat) : List Reservation :=
  resvs.map (fun r => if r.id = rid then { r with status := st, updatedAt := now } else r)

/-! ## Expiration Reaper (`checkExpiredReservations`, conditional-write revision) -/

/-- `RESERVATION_EXPIRATION_HOURS = 1`, in milliseconds. -/
def RESERVATION_EXPIRATION_MS : Nat := 3600000

/-- `getExpiredReservations`: Scan with filter
`status = pending AND createdAt < now - 1h`. -/
def getExpiredReservations (store : Store) (now : Nat) : List Reservation :=
  store.reservations.filter
    (fun r => decide (r.status = .pending ∧ r.createdAt < now - RESERVATION_EXPIRATION_MS))

/-- `updateReservationToExpired`: `UpdateCommand` with
`ConditionExpression: "#status = :pending"` — sets `expired` only when the
record is still `pending`; a `ConditionalCheckFailedException` is caught and
treated as a skip, leaving the record untouched. -/
def updateReservationToExpired (resvs : List Reservation) (rid : String)
    (now : Nat) : List Reservation :=
  resvs.map (fun r =>
    if r.id = rid ∧ r.status = .pending
    then { r with status := .expired, updatedAt := now } else r)

/-- The reaper handler: expire every stale pending reservation found by the
scan, each through the conditional write. -/
def checkExpiredReservationsHandler (store : Store) (now : Nat) : Store :=
  { store with
    reservations :=
      (getExpiredReservations store now).foldl
        (fun l r => updateReservationToExpired l r.id now) store.reservations }

/-! ## Reservation Admission (`createReservation`) -/

/-- The parsed request body of a create-reservation call.  A string field the
request omits parses to `undefined`, which the code's `!field` test treats the
same as the empty string, so both are modelled as `""`; an omitted
`reservedSeats` is `none`. -/
structure CreateRequest where
  performanceId : String
  scheduleId : String
  name : String
  email : String
  reservedSeats : JNum
  notes : Option String
deriving DecidableEq, Repr

/-- Outcomes of the create-reservation handler, labelled by error code. -/
inductive CreateResult where
  | invalidInput
  | perfNotFound
  | notYetOpen
  | duplicateSchedule
  | capReached
  | seatShortage
  | internalErr
  | created (reservationId confirmationCode : String)
deriving DecidableEq, Repr

/-- The handler's field validation:
`!performanceId || !scheduleId || !name || !email || reservedSeats <= 0`.
In JavaScript `undefined <= 0` is `false`, so a missing `reservedSeats`
does NOT fail this check (`jle none (some 0) = false`). -/
def createInputInvalid (req : CreateRequest) : Bool :=
  req.performanceId == "" || req.scheduleId == "" || req.name == "" ||
    req.email == "" || jle req.reservedSeats (some 0)

/-- Outcome of `checkExistingReservation` (Duplicate/Cap Policy). -/
inductive DupCheck where
  | sameSchedule
  | maxPerformanceReached
  | allowed
deriving DecidableEq, Repr

/-- `checkExistingReservation`: reject when the email already holds a
pending/confirmed reservation on the same schedule, or two or more across the
performance. -/
def checkExistingReservation (store : Store) (pid sid email : String) : DupCheck :=
  let sameSchedule := store.reservations.filter
    (fun r => decide (r.performanceId = pid ∧ r.scheduleId = sid ∧ r.email = email ∧
      (r.status = .pending ∨ r.status = .confirmed)))
  let samePerformance := store.reservations.filter
    (fun r => decide (r.performanceId = pid ∧ r.email = email ∧
      (r.status = .pending ∨ r.status = .confirmed)))
  if sameSchedule.length > 0 then .sameSchedule
  else if samePerformance.length ≥ 2 then .maxPerformanceReached
  else .allowed

/-- The `reduce((total, item) => total + item.reservedSeats, 0)` over the
GSI1 query filtered to `status IN (pending, confirmed)` for one schedule. -/
def reservedSeatsSumPC (store : Store) (pid sid : String) : JNum :=
  jsum ((store.reservations.filter
    (fun r => decide (r.performanceId = pid ∧ r.scheduleId = sid ∧
      (r.status = .pending ∨ r.status = .confirmed)))).map (·.reservedSeats))

/-- The same reduce over the query filtered to `status = confirmed` only. -/
def reservedSeatsSumConfirmed (store : Store) (pid sid : String) : JNum :=
  jsum ((store.reservations.filter
    (fun r => decide (r.performanceId = pid ∧ r.scheduleId = sid ∧
      r.status = .confirmed))).map (·.reservedSeats))

/-- `getAvailableSeats` of `createReservation.mjs`: the schedule's
`totalSeats` minus the sum of `reservedSeats` over this schedule's
reservations in status pending or confirmed; `none` when the schedule is
missing (the code throws `"Schedule not found"`). -/
def getAvailableSeatsCreate (store : Store) (pid sid : String) : Option JNum :=
  match findSchedule store pid sid with
  | none => none
  | some sch =>
    some (jsub (some sch.totalSeats) (reservedSeatsSumPC store pid sid))

/-- `generateTemporaryUrl`: the confirmation link, whose token is the hex
SHA-256 digest of `reservationId + email + secretKey` (plain `createHash`,
string concatenation). -/
def generateTemporaryUrl (confirmationUrl rid email secretKey : String) : String :=
  confirmationUrl ++ "?id=" ++ rid ++ "&token=" ++ sha256HexAscii (rid ++ email ++ secretKey)

/-- The create-reservation handler: field validation, performance lookup,
open-time gate, duplicate/cap policy, seat availability, then a
create-if-absent put of a `pending` reservation.  `newId` and `code` stand for
the generated reservation id and human confirmation code; a failed
`attribute_not_exists(id)` condition throws and surfaces as E999. -/
def createReservationHandler (store : Store) (req : CreateRequest)
    (newId code : String) (now : Nat) : CreateResult × Store :=
  if createInputInvalid req then (.invalidInput, store)
  else
    match findPerformance store req.performanceId with
    | none => (.perfNotFound, store)
    | some perf =>
      if now < perf.reservationStartTime then (.notYetOpen, store)
      else
        match checkExistingReservation store req.performanceId req.scheduleId req.email with
        | .sameSchedule => (.duplicateSchedule, store)
        | .maxPerformanceReached => (.capReached, store)
        | .allowed =>
          match getAvailableSeatsCreate store req.performanceId req.scheduleId with
          | none => (.internalErr, store)
          | some avail =>
            if jlt avail req.reservedSeats then (.seatShortage, store)
            else if store.reservations.any (fun r => r.id == newId) then (.internalErr, store)
            else
              (.created newId code,
               { store with
                 reservations := store.reservations ++
                   [{ id := newId, performanceId := req.performanceId,
                      scheduleId := req.scheduleId, name := req.name,
                      email := req.email, reservedSeats := req.reservedSeats,
                      notes := req.notes, confirmationCode := code,
                      status := .pending, createdAt := now, updatedAt := now }] })

/-! ## Attendee Materializer (`confirmReservation` / `createAttendeesBatch`) -/

/-- The number of iterations of `for (let i = 0; i < reservedSeats; i++)`:
`max 0 n` for an integer, zero when `reservedSeats` is `undefined`/`NaN`. -/
def seatLoopCount : JNum → Nat
  | some n => n.toNat
  | none => 0

/-- `buildAttendeeRecords`: occupant 0 carries the requester's name and the
reservation's note (`notes || ""`); occupants 1.. carry the derived companion
display name (requester name with companion label) and an empty note; all are
written with `checkedIn = false`.  `mkId` stands for the `ATT-` + uuid
generator. -/
def buildAttendeeRecords (r : Reservation) (mkId : Nat → String) (now : Nat) :
    List Attendee :=
  (List.range (seatLoopCount r.reservedSeats)).map (fun i =>
    { id := mkId i, reservationId := r.id, performanceId := r.performanceId,
      scheduleId := r.scheduleId,
      name := if i = 0 then r.name else " " ++ r.name ++ " お連れ様",
      checkedIn := false, createdAt := now,
      notes := if i = 0 then r.notes.getD "" else "" })

/-- `hasAnyAttendees`: Query by `reservationId` with `Limit: 1`, non-empty. -/
def hasAnyAttendees (atts : List Attendee) (rid : String) : Bool :=
  atts.any (fun a => decide (a.reservationId = rid))

/-- `createAttendeesIfNotExists`: the idempotency guard followed by the bulk
put of the expanded attendee records. -/
def createAttendeesIfNotExists (store : Store) (r : Reservation)
    (mkId : Nat → String) (now : Nat) : Store :=
  if hasAnyAttendees store.attendees r.id then store
  else { store with attendees := store.attendees ++ buildAttendeeRecords r mkId now }

/-! ## Confirmation Protocol (`confirmReservation`, attendee-materializing revision) -/

/-- Outcomes of the confirmation handler (the `status` query parameter of the
`redirectToFrontend` result). -/
inductive ConfirmResult where
  | notFound
  | expiredLink
  | invalidToken
  | alreadyConfirmed
  | noSeats
  | internalErr
  | success
deriving DecidableEq, Repr

/-- `getAvailableSeats` of `confirmReservation`: `totalSeats` minus the sum of
`reservedSeats` over this schedule's reservations in status `confirmed` only;
`none` when the schedule record is missing (the code would throw reading
`.totalSeats` of `undefined`). -/
def getAvailableSeatsConfirm (store : Store) (pid sid : String) : Option JNum :=
  match findSchedule store pid sid with
  | none => none
  | some sch =>
    some (jsub (some sch.totalSeats) (reservedSeatsSumConfirmed store pid sid))

/-- The confirmation handler: load, expired-status check, token check against
the recomputed SHA-256 of `id + stored email + secret`, idempotent
already-confirmed exit, confirmed-only seat re-check, then the transactional
status flip followed by attendee materialization. -/
def confirmReservationHandler (store : Store) (rid token secret : String)
    (now : Nat) (mkId : Nat → String) : ConfirmResult × Store :=
  match getReservation store rid with
  | none => (.notFound, store)
  | some r =>
    if r.status = .expired then (.expiredLink, store)
    else if token ≠ sha256HexAscii (rid ++ r.email ++ secret) then (.invalidToken, store)
    else if r.status = .confirmed then (.alreadyConfirmed, store)
    else
      match getAvailableSeatsConfirm store r.performanceId r.scheduleId with
      | none => (.internalErr, store)
      | some avail =>
        if jlt avail r.reservedSeats then (.noSeats, store)
        else
          let store1 := { store with
            reservations := updateReservationStatus store.reservations r.id .confirmed now }
          (.success, createAttendeesIfNotExists store1 r mkId now)

/-! ## Cancellation Handler (`cancelReservation`, attendee-deleting revision) -/

/-- Outcomes of the cancellation handler. -/
inductive CancelResult where
  | errorE002
  | success
deriving DecidableEq, Repr

/-- `deleteAttendeesForReservation`: paginated query by `reservationId` and
batched delete of every matching attendee record. -/
def deleteAttendeesForReservation (atts : List Attendee) (rid : String) :
    List Attendee :=
  atts.filter (fun a => decide (a.reservationId ≠ rid))

/-- The cancellation handler: input presence check, load, token check against
the SHA-256 of `id + secret` (no email component), idempotent no-op on an
already-canceled record, otherwise status write to `canceled` and bulk
deletion of the reservation's attendees. -/
def cancelReservationHandler (store : Store) (rid token secret : String)
    (now : Nat) : CancelResult × Store :=
  if rid == "" || token == "" then (.errorE002, store)
  else
    match getReservation store rid with
    | none => (.errorE002, store)
    | some r =>
      if token ≠ sha256HexAscii (rid ++ secret) then (.errorE002, store)
      else if r.status = .canceled then (.success, store)
      else
        (.success,
         { store with
           reservations := updateReservationStatus store.reservations rid .canceled now,
           attendees := deleteAttendeesForReservation store.attendees r.id })

/-- The cancellation link built by the confirmation email: token is the hex
SHA-256 of `reservationId + secretKey`, without the email. -/
def generateCancelUrl (frontendUrl rid secretKey : String) : String :=
  frontendUrl ++ "/reservations/cancel?id=" ++ rid ++ "&token=" ++
    sha256HexAscii (rid ++ secretKey)

/-! ## Capacity Guard (`updatePerformanceAdmin`, revision with the
no-shrink checks E106/E107) -/

/-- `THEATER_CAPACITY = 48`, the fixed venue capacity constant. -/
def THEATER_CAPACITY : Int := 48

/-- Outcomes of the per-schedule `totalSeats` validation, labelled by the
error code of the rejecting branch. -/
inductive SeatUpdateResult where
  | schedNotFound
  | exceedsCapacity
  | cannotDecrease
  | belowReserved
  | ok
deriving DecidableEq, Repr

/-- `getReservedSeats(performanceId, id, ["pending", "confirmed"])`: the
pending+confirmed seat sum for the schedule. -/
def getReservedSeatsAdmin (store : Store) (pid sid : String) : JNum :=
  reservedSeatsSumPC store pid sid

/-- Step 5(A) of the admin handler for one schedule entry: existence, the
`> THEATER_CAPACITY` cap (E102), the `< existing.totalSeats` no-shrink check
(E107), and the `< reserved` check (E103), in the code's order. -/
def validateTotalSeatsUpdate (store : Store) (pid sid : String)
    (newTotal : Int) : SeatUpdateResult :=
  match findSchedule store pid sid with
  | none => .schedNotFound
  | some existing =>
    if newTotal > THEATER_CAPACITY then .exceedsCapacity
    else if newTotal < existing.totalSeats then .cannotDecrease
    else if jlt (some newTotal) (getReservedSeatsAdmin store pid sid) then .belowReserved
    else .ok

/-- The admin handler restricted to one schedule's `totalSeats` update: the
validation phase runs before any write, and only an `ok` validation reaches
the `UpdateCommand` that stores the new value. -/
def updateScheduleTotalSeats (store : Store) (pid sid : String)
    (newTotal : Int) : SeatUpdateResult × Store :=
  match validateTotalSeatsUpdate store pid sid newTotal with
  | .ok =>
    (.ok,
     { store with
       schedules := store.schedules.map (fun s =>
         if s.performanceId = pid ∧ s.id = sid
         then { s with totalSeats := newTotal } else s) })
  | res => (res, store)

/-! ## Public performance details (`getPerformance`) -/

/-- `getAvailableSeats` of `getPerformance`: `totalSeats` minus the
pending+confirmed seat sum of the schedule. -/
def getAvailableSeatsPublic (store : Store) (sch : Schedule) : JNum :=
  jsub (some sch.totalSeats) (reservedSeatsSumPC store sch.performanceId sch.id)

/-- `formatSchedule`'s `remainingSeats`: `Math.max(0, availableSeats)`. -/
def formatScheduleRemainingSeats (store : Store) (sch : Schedule) : JNum :=
  jmax0 (getAvailableSeatsPublic store sch)

/-! ## Sample records used by the concrete witnesses -/

/-- A concrete pending reservation. -/
def resR1 : Reservation :=
  { id := "R1", performanceId := "P1", scheduleId := "S1", name := "Alice",
    email := "a@b.c", reservedSeats := some 2, notes := some "front row",
    confirmationCode := "CODE1", status := .pending, createdAt := 0, updatedAt := 0 }

/-- A concrete unrelated confirmed reservation. -/
def resR2 : Reservation :=
  { id := "R2", performanceId := "P1", scheduleId := "S1", name := "Bob",
    email := "b@b.c", reservedSeats := some 1, notes := none,
    confirmationCode := "CODE2", status := .confirmed, createdAt := 0, updatedAt := 0 }

/-! ## C1 -/

/-- C1: the reaper's transition to `expired` is a conditional write — it
rewrites the record only when the status is still `pending` at write time
(conjunct 2), any record that is no longer `pending` survives the write
unchanged as a benign skip (conjunct 1), and in both interleavings of a
concurrent confirmation write with the reaper's conditional write the final
status of the reservation is `confirmed`, never `expired`
(conjuncts 3 and 4). -/
theorem expiration_reaper_conditional_write
    (l : List Reservation) (rid : String) (t₁ t₂ : Nat) :
    (∀ r ∈ l, r.status ≠ .pending → r ∈ updateReservationToExpired l rid t₂) ∧
    (∀ r ∈ l, r.id = rid → r.status = .pending →
      { r with status := .expired, updatedAt := t₂ } ∈ updateReservationToExpired l rid t₂) ∧
    (∀ r' ∈ updateReservationToExpired (updateReservationStatus l rid .confirmed t₁) rid t₂,
      r'.id = rid → r'.status = .confirmed) ∧
    (∀ r' ∈ updateReservationStatus (updateReservationToExpired l rid t₂) rid .confirmed t₁,
      r'.id = rid → r'.status = .confirmed) := by
  refine ⟨?_, ?_, ?_, ?_⟩
  · intro r hr hst
    simp only [updateReservationToExpired, List.mem_map]
    exact ⟨r, hr, if_neg (by rintro ⟨-, h2⟩; exact hst h2)⟩
  · intro r hr hid hst
    simp only [updateReservationToExpired, List.mem_map]
    exact ⟨r, hr, if_pos ⟨hid, hst⟩⟩
  · intro r' hr' hid
    simp only [updateReservationToExpired, updateReservationStatus, List.map_map,
      List.mem_map, Function.comp_apply] at hr'
    obtain ⟨r, hr, heq⟩ := hr'
    by_cases h : r.id = rid
    · rw [← heq]
      simp [h]
    · rw [← heq] at hid
      simp [h] at hid
  · intro r' hr' hid
    simp only [updateReservationToExpired, updateReservationStatus, List.map_map,
      List.mem_map, Function.comp_apply] at hr'
    obtain ⟨r, hr, heq⟩ := hr'
    by_cases h : r.id = rid
    · rw [← heq]
      by_cases h2 : r.status = RStatus.pending
      · simp [h, h2]
      · simp [h, h2]
    · rw [← heq] at hid
      simp [h] at hid

/-- C1 witness: the theorem applied at a concrete two-record table — the
confirmed record `resR2` survives a sweep unchanged, and a pending `resR1`
that a concurrent confirmation beat to the write ends `confirmed`. -/
theorem expiration_reaper_conditional_write_witness :
    resR2 ∈ updateReservationToExpired [resR1, resR2] "R2" 5 ∧
    ∀ r' ∈ updateReservationToExpired
        (updateReservationStatus [resR1, resR2] "R1" .confirmed 4) "R1" 5,
      r'.id = "R1" → r'.status = .confirmed := by
  have h := expiration_reaper_conditional_write [resR1, resR2] "R2" 4 5
  have h' := expiration_reaper_conditional_write [resR1, resR2] "R1" 4 5
  exact ⟨h.1 resR2 (by decide) (by decide), h'.2.2.1⟩

/-! ## C2 -/

/-- A concrete performance whose reservations are open from time 0. -/
def perfP1 : Performance :=
  { id := "P1", title := "Spring Show", reservationStartTime := 0,
    maxReservations := some 2, adminUuid := "ADMIN-UUID" }

/-- A concrete schedule with 10 total seats. -/
def schedS1 : Schedule :=
  { performanceId := "P1", id := "S1", date := "2025-04-01", time := "19:00",
    totalSeats := 10, entryUrl := none }

/-- The store of the C2 scenario: one open performance, one 10-seat schedule,
no reservations. -/
def store0 : Store :=
  { performances := [perfP1], schedules := [schedS1], reservations := [], attendees := [] }

/-- The scenario's first request: 10 seats by Alice. -/
def req10 : CreateRequest :=
  { performanceId := "P1", scheduleId := "S1", name := "Alice", email := "a@b.c",
    reservedSeats := some 10, notes := none }

/-- The scenario's second request: 1 seat by Bob, same schedule. -/
def req1b : CreateRequest :=
  { performanceId := "P1", scheduleId := "S1", name := "Bob", email := "b@b.c",
    reservedSeats := some 1, notes := none }

/-- C2: a reservation is created only when the pending+confirmed seat sum plus
the requested seats stays within the schedule's total seats (conjunct 1); when
every earlier gate passes and the sum would overflow, the request is rejected
with the seat-shortage code E001 (conjunct 2); and concretely on a 10-seat
schedule with no reservations a 10-seat admission succeeds while a subsequent
1-seat admission is rejected with seat-shortage (conjunct 3). -/
theorem admission_capacity_check :
    (∀ (store : Store) (req : CreateRequest) (newId code : String) (now : Nat)
       (sch : Schedule) (n s : Int),
       findSchedule store req.performanceId req.scheduleId = some sch →
       req.reservedSeats = some n →
       reservedSeatsSumPC store req.performanceId req.scheduleId = some s →
       (∃ rid c, (createReservationHandler store req newId code now).1 = .created rid c) →
       s + n ≤ sch.totalSeats) ∧
    (∀ (store : Store) (req : CreateRequest) (newId code : String) (now : Nat)
       (sch : Schedule) (perf : Performance) (n s : Int),
       createInputInvalid req = false →
       findPerformance store req.performanceId = some perf →
       perf.reservationStartTime ≤ now →
       checkExistingReservation store req.performanceId req.scheduleId req.email = .allowed →
       findSchedule store req.performanceId req.scheduleId = some sch →
       req.reservedSeats = some n →
       reservedSeatsSumPC store req.performanceId req.scheduleId = some s →
       sch.totalSeats < s + n →
       (createReservationHandler store req newId code now).1 = .seatShortage) ∧
    ((createReservationHandler store0 req10 "R10" "C10" 5).1 = .created "R10" "C10" ∧
     (createReservationHandler
        (createReservationHandler store0 req10 "R10" "C10" 5).2 req1b "R11" "C11" 6).1 =
       .seatShortage) := by
  refine ⟨?_, ?_, by decide, by decide⟩
  · intro store req newId code now sch n s hsch hn hs hres
    obtain ⟨rid, c, hres⟩ := hres
    have hg : getAvailableSeatsCreate store req.performanceId req.scheduleId
        = some (some (sch.totalSeats - s)) := by
      simp only [getAvailableSeatsCreate, hsch, hs]
      rfl
    unfold createReservationHandler at hres
    rw [hg, hn] at hres
    repeat' split at hres
    all_goals try (refine absurd hres ?_; simp; done)
    rename_i avail heqa hnlt hany
    obtain rfl : avail = some (sch.totalSeats - s) := by
      injection heqa with h
      exact h.symm
    simp only [jlt, decide_eq_true_eq] at hnlt
    omega
  · intro store req newId code now sch perf n s hvalid hperf hopen hdup hsch hn hs hover
    have hg : getAvailableSeatsCreate store req.performanceId req.scheduleId
        = some (some (sch.totalSeats - s)) := by
      simp only [getAvailableSeatsCreate, hsch, hs]
      rfl
    unfold createReservationHandler
    split
    · rename_i hbad
      rw [hvalid] at hbad
      exact absurd hbad (by simp)
    · split
      · rename_i heq
        rw [hperf] at heq
        exact absurd heq (by simp)
      · rename_i perf' heq
        rw [hperf] at heq
        obtain rfl : perf' = perf := by injection heq with h; exact h.symm
        split
        · rename_i hlt
          exact absurd hlt (Nat.not_lt.mpr hopen)
        · split
          · rename_i heqd
            rw [hdup] at heqd
            exact absurd heqd (by simp)
          · rename_i heqd
            rw [hdup] at heqd
            exact absurd heqd (by simp)
          · split
            · rename_i heqa
              rw [hg] at heqa
              exact absurd heqa (by simp)
            · rename_i avail heqa
              rw [hg] at heqa
              obtain rfl : avail = some (sch.totalSeats - s) := by
                injection heqa with h
                exact h.symm
              have hcond : jlt (some (sch.totalSeats - s)) (some n) = true := by
                simp only [jlt, decide_eq_true_eq]
                omega
              rw [hn, if_pos hcond]

/-- C2 witness: conjunct 2 of the theorem applied to the concrete scenario
store after the 10-seat admission, with every hypothesis discharged by
evaluation. -/
theorem admission_capacity_check_witness :
    (createReservationHandler
       (createReservationHandler store0 req10 "R10" "C10" 5).2 req1b "R11" "C11" 6).1 =
      .seatShortage := by
  have h := admission_capacity_check
  exact h.2.1 (createReservationHandler store0 req10 "R10" "C10" 5).2 req1b "R11" "C11" 6
    schedS1 perfP1 1 10 (by decide) (by decide) (by decide) (by decide) (by decide)
    (by decide) (by decide) (by decide)

/-! ## C3 -/

/-- Materialization never touches the Reservations table. -/
theorem createAttendeesIfNotExists_reservations (store : Store) (r : Reservation)
    (mkId : Nat → String) (now : Nat) :
    (createAttendeesIfNotExists store r mkId now).reservations = store.reservations := by
  unfold createAttendeesIfNotExists
  split <;> rfl

/-- After an unconditional status write, every record bearing the written key
carries the written status. -/
theorem updateReservationStatus_mem (l : List Reservation) (rid : String)
    (st : RStatus) (now : Nat) :
    ∀ r' ∈ updateReservationStatus l rid st now, r'.id = rid → r'.status = st := by
  intro r' hr' hid
  simp only [updateReservationStatus, List.mem_map] at hr'
  obtain ⟨r, hr, heq⟩ := hr'
  by_cases h : r.id = rid
  · rw [← heq]
    simp [h]
  · rw [← heq] at hid
    simp [h] at hid

/-- The store used by several concrete witnesses: one open performance, the
10-seat schedule, the pending reservation `resR1`, no attendees. -/
def storeW : Store :=
  { performances := [perfP1], schedules := [schedS1], reservations := [resR1],
    attendees := [] }

/-- The confirmation handler once the reservation has been loaded. -/
theorem confirmReservationHandler_found (store : Store) (rid token secret : String)
    (now : Nat) (mkId : Nat → String) (r : Reservation)
    (hfind : getReservation store rid = some r) :
    confirmReservationHandler store rid token secret now mkId =
      if r.status = .expired then (.expiredLink, store)
      else if token ≠ sha256HexAscii (rid ++ r.email ++ secret) then (.invalidToken, store)
      else if r.status = .confirmed then (.alreadyConfirmed, store)
      else
        match getAvailableSeatsConfirm store r.performanceId r.scheduleId with
        | none => (.internalErr, store)
        | some avail =>
          if jlt avail r.reservedSeats then (.noSeats, store)
          else
            (.success,
             createAttendeesIfNotExists
               { store with
                 reservations := updateReservationStatus store.reservations r.id .confirmed now }
               r mkId now) := by
  unfold confirmReservationHandler
  rw [hfind]

/-- C3: every outcome of the confirmation handler other than `success` leaves
the store exactly as it was — reservation missing, expired link, token
mismatch, no-seats (and the idempotent already-confirmed exit and the
internal-error path) all write nothing (conjunct 1); on `success` the
reservation's status flips to `confirmed` and materialization has run, so the
reservation owns attendee records whenever its seat count is positive
(conjunct 2). -/
theorem confirmation_failure_writes_nothing
    (store : Store) (rid token secret : String) (now : Nat) (mkId : Nat → String) :
    (∀ res store', confirmReservationHandler store rid token secret now mkId = (res, store') →
       res ≠ .success → store' = store) ∧
    (∀ r, getReservation store rid = some r →
       ∀ store', confirmReservationHandler store rid token secret now mkId = (.success, store') →
       (∀ r' ∈ store'.reservations, r'.id = r.id → r'.status = .confirmed) ∧
       (1 ≤ seatLoopCount r.reservedSeats →
         hasAnyAttendees store'.attendees r.id = true)) := by
  constructor
  · intro res store' heq hne
    unfold confirmReservationHandler at heq
    repeat' split at heq
    all_goals injection heq with h1 h2
    all_goals first
      | exact h2.symm
      | exact absurd h1.symm hne
  · intro r hfind store' heq
    rw [confirmReservationHandler_found store rid token secret now mkId r hfind] at heq
    repeat' split at heq
    all_goals injection heq with h1 h2
    all_goals try exact ConfirmResult.noConfusion h1
    constructor
    · intro r' hr' hid
      rw [← h2, createAttendeesIfNotExists_reservations] at hr'
      exact updateReservationStatus_mem _ _ _ _ r' hr' hid
    · intro hseats
      rw [← h2]
      unfold createAttendeesIfNotExists
      split
      · rename_i hhas
        exact hhas
      · simp only [hasAnyAttendees, List.any_append, Bool.or_eq_true]
        refine Or.inr ?_
        rw [List.any_eq_true]
        refine ⟨_, List.mem_map_of_mem _ (List.mem_range.mpr (by omega :
          (0 : Nat) < seatLoopCount r.reservedSeats)), by simp⟩

/-- C3 witness: the theorem applied at a concrete store — a tampered-token
confirmation leaves the store untouched, and a valid-token confirmation of the
pending `resR1` succeeds and materializes its attendees. -/
theorem confirmation_failure_writes_nothing_witness :
    (confirmReservationHandler storeW "R1" "tampered" "sec" 7
        (fun i => "ATT-" ++ toString i)).2 = storeW ∧
    hasAnyAttendees
      (confirmReservationHandler storeW "R1" (sha256HexAscii ("R1" ++ "a@b.c" ++ "sec"))
          "sec" 7 (fun i => "ATT-" ++ toString i)).2.attendees resR1.id = true := by
  have h1 := confirmation_failure_writes_nothing storeW "R1" "tampered" "sec" 7
    (fun i => "ATT-" ++ toString i)
  have h2 := confirmation_failure_writes_nothing storeW "R1"
    (sha256HexAscii ("R1" ++ "a@b.c" ++ "sec")) "sec" 7 (fun i => "ATT-" ++ toString i)
  constructor
  · exact h1.1 .invalidToken
      (confirmReservationHandler storeW "R1" "tampered" "sec" 7
        (fun i => "ATT-" ++ toString i)).2 (by decide) (by decide)
  · exact (h2.2 resR1 (by decide)
      (confirmReservationHandler storeW "R1" (sha256HexAscii ("R1" ++ "a@b.c" ++ "sec"))
        "sec" 7 (fun i => "ATT-" ++ toString i)).2 (by decide)).2 (by decide)

/-! ## C4 -/

/-- C4 counterexample: at a concrete reservation id, email and secret, the
confirmation link built by the code carries the plain SHA-256 digest of the
concatenation, which is not the RFC-2104 HMAC-SHA256 over the same material
keyed with the secret. -/
theorem confirmation_token_is_not_hmac :
    generateTemporaryUrl "https://x/confirm" "R1" "a@b.c" "sec" ≠
      "https://x/confirm?id=R1&token=" ++ hmacSha256HexAscii "sec" ("R1" ++ "a@b.c") := by
  decide

/-- The cancellation handler once the input check passed and the reservation
has been loaded. -/
theorem cancelReservationHandler_found (store : Store) (rid token secret : String)
    (now : Nat) (r : Reservation)
    (hin : ¬(rid == "" || token == "") = true)
    (hfind : getReservation store rid = some r) :
    cancelReservationHandler store rid token secret now =
      if token ≠ sha256HexAscii (rid ++ secret) then (.errorE002, store)
      else if r.status = .canceled then (.success, store)
      else
        (.success,
         { store with
           reservations := updateReservationStatus store.reservations rid .canceled now,
           attendees := deleteAttendeesForReservation store.attendees r.id }) := by
  unfold cancelReservationHandler
  rw [if_neg hin, hfind]

/-- C4 (amended): the confirmation-link token is the hex SHA-256 digest of
`reservationId ∥ requesterEmail ∥ secret` and the cancellation token the hex
SHA-256 digest of `reservationId ∥ secret` (plain `createHash("sha256")`, not
RFC-2104 HMAC-SHA256); a confirmation or cancellation request whose token
differs from the recomputed digest is rejected without state change. -/
theorem token_scheme_sha256_and_rejection
    (store : Store) (rid token secret : String) (now : Nat) (mkId : Nat → String)
    (base frontend email : String) :
    (generateTemporaryUrl base rid email secret =
      base ++ "?id=" ++ rid ++ "&token=" ++ sha256HexAscii (rid ++ email ++ secret)) ∧
    (generateCancelUrl frontend rid secret =
      frontend ++ "/reservations/cancel?id=" ++ rid ++ "&token=" ++
        sha256HexAscii (rid ++ secret)) ∧
    (∀ r, getReservation store rid = some r → r.status ≠ .expired →
      token ≠ sha256HexAscii (rid ++ r.email ++ secret) →
      confirmReservationHandler store rid token secret now mkId = (.invalidToken, store)) ∧
    (∀ r, getReservation store rid = some r →
      ¬(rid == "" || token == "") = true →
      token ≠ sha256HexAscii (rid ++ secret) →
      cancelReservationHandler store rid token secret now = (.errorE002, store)) := by
  refine ⟨rfl, rfl, ?_, ?_⟩
  · intro r hfind hexp htok
    rw [confirmReservationHandler_found store rid token secret now mkId r hfind]
    rw [if_neg hexp, if_pos htok]
  · intro r hfind hin htok
    rw [cancelReservationHandler_found store rid token secret now r hin hfind]
    rw [if_pos htok]

/-- C4 amended-theorem witness: a tampered token is rejected by both the
confirmation and the cancellation handler at a concrete store, with no state
change. -/
theorem token_scheme_sha256_and_rejection_witness :
    confirmReservationHandler storeW "R1" "bad" "sec" 7 (fun _ => "A0") =
      (.invalidToken, storeW) ∧
    cancelReservationHandler storeW "R1" "bad" "sec" 7 = (.errorE002, storeW) := by
  have h := token_scheme_sha256_and_rejection storeW "R1" "bad" "sec" 7 (fun _ => "A0")
    "https://x" "https://y" "a@b.c"
  exact ⟨h.2.2.1 resR1 (by decide) (by decide) (by decide),
         h.2.2.2 resR1 (by decide) (by decide) (by decide)⟩

/-! ## C5 -/

/-- A concrete expired reservation. -/
def resExp : Reservation :=
  { id := "RE", performanceId := "P1", scheduleId := "S1", name := "Dave",
    email := "d@b.c", reservedSeats := some 1, notes := none,
    confirmationCode := "CODE3", status := .expired, createdAt := 0, updatedAt := 2 }

/-- The store holding the expired reservation. -/
def storeC5 : Store :=
  { performances := [perfP1], schedules := [schedS1], reservations := [resExp],
    attendees := [] }

/-- C5 counterexample: the cancellation handler short-circuits only on
`canceled`, so a valid-token cancel request against the *expired* reservation
`resExp` succeeds and rewrites its status to `canceled` — a transition out of
`expired` that the claim rules out. -/
theorem cancel_moves_expired_to_canceled :
    resExp.status = .expired ∧
    (cancelReservationHandler storeC5 "RE" (sha256HexAscii ("RE" ++ "sec")) "sec" 9).1 =
      .success ∧
    (getReservation
        (cancelReservationHandler storeC5 "RE" (sha256HexAscii ("RE" ++ "sec")) "sec" 9).2
        "RE").map (·.status) = some .canceled := by
  decide

/-- C5 (amended): the Expiration Reaper's conditional write never changes a
record that is not `pending` (so never one that is `expired` or `canceled`);
the Confirmation Protocol never changes an `expired` reservation; the
Cancellation Handler is an idempotent no-op on a `canceled` reservation; but
the Cancellation Handler moves every non-`canceled` reservation with a valid
token — `tentative`/`pending` and `confirmed`, and also `expired` — to
`canceled`. -/
theorem terminal_status_transitions
    (store : Store) (rid token secret : String) (now : Nat) (mkId : Nat → String) :
    (∀ r ∈ store.reservations, r.status ≠ .pending →
      r ∈ updateReservationToExpired store.reservations rid now) ∧
    (∀ r, getReservation store rid = some r → r.status = .expired →
      confirmReservationHandler store rid token secret now mkId = (.expiredLink, store)) ∧
    (∀ r, getReservation store rid = some r →
      ¬(rid == "" || token == "") = true →
      token = sha256HexAscii (rid ++ secret) → r.status = .canceled →
      cancelReservationHandler store rid token secret now = (.success, store)) ∧
    (∀ r, getReservation store rid = some r →
      ¬(rid == "" || token == "") = true →
      token = sha256HexAscii (rid ++ secret) → r.status ≠ .canceled →
      (cancelReservationHandler store rid token secret now).1 = .success ∧
      (∀ r' ∈ (cancelReservationHandler store rid token secret now).2.reservations,
        r'.id = rid → r'.status = .canceled)) := by
  refine ⟨?_, ?_, ?_, ?_⟩
  · intro r hr hst
    simp only [updateReservationToExpired, List.mem_map]
    exact ⟨r, hr, if_neg (by rintro ⟨-, h2⟩; exact hst h2)⟩
  · intro r hfind hexp
    rw [confirmReservationHandler_found store rid token secret now mkId r hfind]
    rw [if_pos hexp]
  · intro r hfind hin htok hcan
    rw [cancelReservationHandler_found store rid token secret now r hin hfind]
    rw [if_neg (not_not_intro htok), if_pos hcan]
  · intro r hfind hin htok hcan
    rw [cancelReservationHandler_found store rid token secret now r hin hfind]
    rw [if_neg (not_not_intro htok), if_neg hcan]
    exact ⟨rfl, fun r' hr' hid => updateReservationStatus_mem _ _ _ _ r' hr' hid⟩

/-- C5 amended-theorem witness: at the concrete expired-reservation store, a
valid-token confirmation is rejected as an expired link with no write, and the
valid-token cancel of the expired record ends with its status `canceled`. -/
theorem terminal_status_transitions_witness :
    confirmReservationHandler storeC5 "RE" (sha256HexAscii ("RE" ++ "d@b.c" ++ "sec"))
        "sec" 9 (fun _ => "A0") = (.expiredLink, storeC5) ∧
    ∀ r' ∈ (cancelReservationHandler storeC5 "RE" (sha256HexAscii ("RE" ++ "sec"))
        "sec" 9).2.reservations, r'.id = "RE" → r'.status = .canceled := by
  have h := terminal_status_transitions storeC5 "RE"
    (sha256HexAscii ("RE" ++ "d@b.c" ++ "sec")) "sec" 9 (fun _ => "A0")
  have h2 := terminal_status_transitions storeC5 "RE"
    (sha256HexAscii ("RE" ++ "sec")) "sec" 9 (fun _ => "A0")
  exact ⟨h.2.1 resExp (by decide) (by decide),
         (h2.2.2.2 resExp (by decide) (by decide) rfl (by decide)).2⟩

/-! ## C6 -/

/-- C6: with no attendees yet for the reservation, materialization appends the
expanded records (conjunct 1) and is skipped entirely when any attendee
already references the reservation id (conjunct 2); the expansion yields
exactly N records (conjunct 3); record 0 carries the requester's name and the
reservation's note (conjunct 4); records 1..N-1 carry the derived companion
display name and an empty note (conjunct 5); every record is written with
`checkedIn = false` (conjunct 6); and re-invocation after a materialization
creates nothing further (conjunct 7). -/
theorem attendee_materializer_exact
    (store : Store) (r : Reservation) (mkId : Nat → String) (now : Nat) (n : Int)
    (hn : r.reservedSeats = some n) (hpos : 1 ≤ n) (_hst : r.status = .confirmed) :
    (hasAnyAttendees store.attendees r.id = false →
      (createAttendeesIfNotExists store r mkId now).attendees =
        store.attendees ++ buildAttendeeRecords r mkId now) ∧
    (hasAnyAttendees store.attendees r.id = true →
      createAttendeesIfNotExists store r mkId now = store) ∧
    (buildAttendeeRecords r mkId now).length = n.toNat ∧
    (buildAttendeeRecords r mkId now)[0]? =
      some { id := mkId 0, reservationId := r.id, performanceId := r.performanceId,
             scheduleId := r.scheduleId, name := r.name, checkedIn := false,
             createdAt := now, notes := r.notes.getD "" } ∧
    (∀ i, 1 ≤ i → i < n.toNat →
      (buildAttendeeRecords r mkId now)[i]? =
        some { id := mkId i, reservationId := r.id, performanceId := r.performanceId,
               scheduleId := r.scheduleId, name := " " ++ r.name ++ " お連れ様",
               checkedIn := false, createdAt := now, notes := "" }) ∧
    (∀ a ∈ buildAttendeeRecords r mkId now, a.checkedIn = false) ∧
    (createAttendeesIfNotExists (createAttendeesIfNotExists store r mkId now) r mkId now =
      createAttendeesIfNotExists store r mkId now) := by
  refine ⟨?_, ?_, ?_, ?_, ?_, ?_, ?_⟩
  · intro h
    unfold createAttendeesIfNotExists
    rw [h]
    simp
  · intro h
    unfold createAttendeesIfNotExists
    rw [h]
    simp
  · simp [buildAttendeeRecords, seatLoopCount, hn]
  · have h0 : (0 : Nat) < seatLoopCount r.reservedSeats := by
      simp only [seatLoopCount, hn]
      omega
    simp [buildAttendeeRecords, List.getElem?_map, List.getElem?_range, h0]
  · intro i h1 h2
    have hi : i < seatLoopCount r.reservedSeats := by
      simp only [seatLoopCount, hn]
      omega
    have hne : i ≠ 0 := by omega
    simp [buildAttendeeRecords, List.getElem?_map, List.getElem?_range, hi, hne]
  · intro a ha
    simp only [buildAttendeeRecords, List.mem_map] at ha
    obtain ⟨i, -, rfl⟩ := ha
    rfl
  · by_cases h : hasAnyAttendees store.attendees r.id = true
    · simp [createAttendeesIfNotExists, h]
    · have hfalse : hasAnyAttendees store.attendees r.id = false := by
        cases hh : hasAnyAttendees store.attendees r.id
        · rfl
        · exact absurd hh h
      have hne : hasAnyAttendees
          (store.attendees ++ buildAttendeeRecords r mkId now) r.id = true := by
        simp only [hasAnyAttendees, List.any_append, Bool.or_eq_true]
        refine Or.inr ?_
        rw [List.any_eq_true]
        have hmem : (0 : Nat) ∈ List.range (seatLoopCount r.reservedSeats) := by
          rw [List.mem_range]
          simp only [seatLoopCount, hn]
          omega
        exact ⟨_, List.mem_map_of_mem _ hmem, by simp⟩
      have hstep : createAttendeesIfNotExists store r mkId now =
          { store with attendees := store.attendees ++ buildAttendeeRecords r mkId now } := by
        unfold createAttendeesIfNotExists
        rw [hfalse]
        simp
      rw [hstep]
      unfold createAttendeesIfNotExists
      simp [hne]

/-- C6 witness: the theorem applied to a confirmed 2-seat reservation over the
empty attendee table — two records are appended, record 0 carrying the
requester's name. -/
theorem attendee_materializer_exact_witness :
    (createAttendeesIfNotExists storeW { resR1 with status := .confirmed }
        (fun i => "ATT-" ++ toString i) 7).attendees =
      storeW.attendees ++
        buildAttendeeRecords { resR1 with status := .confirmed }
          (fun i => "ATT-" ++ toString i) 7 ∧
    (buildAttendeeRecords { resR1 with status := .confirmed }
        (fun i => "ATT-" ++ toString i) 7).length = 2 := by
  have h := attendee_materializer_exact storeW { resR1 with status := .confirmed }
    (fun i => "ATT-" ++ toString i) 7 2 (by decide) (by decide) (by decide)
  exact ⟨h.1 (by decide), h.2.2.1⟩

/-! ## C7 -/

/-- C7: a repeat confirmation of an already-`confirmed` reservation with a
valid token takes the idempotent already-confirmed exit: the handler returns
the pair `(.alreadyConfirmed, store)` — the store, and with it every attendee
record and every stored timestamp, is exactly what the first confirmation left
behind. -/
theorem confirm_already_confirmed_idempotent
    (store : Store) (rid token secret : String) (now : Nat) (mkId : Nat → String)
    (r : Reservation) (hfind : getReservation store rid = some r)
    (hst : r.status = .confirmed)
    (htok : token = sha256HexAscii (rid ++ r.email ++ secret)) :
    confirmReservationHandler store rid token secret now mkId =
      (.alreadyConfirmed, store) := by
  rw [confirmReservationHandler_found store rid token secret now mkId r hfind]
  rw [if_neg (by rw [hst]; exact fun hh => RStatus.noConfusion hh)]
  rw [if_neg (not_not_intro htok), if_pos hst]

/-- C7 witness: the theorem applied to a store already holding the confirmed
`resR2` and its materialized attendee — the repeat confirmation changes
nothing. -/
theorem confirm_already_confirmed_idempotent_witness :
    confirmReservationHandler
        { performances := [perfP1], schedules := [schedS1], reservations := [resR2],
          attendees := [{ id := "A1", reservationId := "R2", performanceId := "P1",
                          scheduleId := "S1", name := "Bob", checkedIn := false,
                          createdAt := 3, notes := "" }] }
        "R2" (sha256HexAscii ("R2" ++ "b@b.c" ++ "sec")) "sec" 9 (fun _ => "A0") =
      (.alreadyConfirmed,
       { performances := [perfP1], schedules := [schedS1], reservations := [resR2],
         attendees := [{ id := "A1", reservationId := "R2", performanceId := "P1",
                         scheduleId := "S1", name := "Bob", checkedIn := false,
                         createdAt := 3, notes := "" }] }) := by
  exact confirm_already_confirmed_idempotent _ "R2"
    (sha256HexAscii ("R2" ++ "b@b.c" ++ "sec")) "sec" 9 (fun _ => "A0") resR2
    (by decide) (by decide) rfl

/-! ## C8 -/

/-- The seat validation once the schedule has been found. -/
theorem validateTotalSeatsUpdate_found (store : Store) (pid sid : String)
    (newTotal : Int) (sch : Schedule)
    (hsch : findSchedule store pid sid = some sch) :
    validateTotalSeatsUpdate store pid sid newTotal =
      if newTotal > THEATER_CAPACITY then .exceedsCapacity
      else if newTotal < sch.totalSeats then .cannotDecrease
      else if jlt (some newTotal) (getReservedSeatsAdmin store pid sid) then .belowReserved
      else .ok := by
  unfold validateTotalSeatsUpdate
  rw [hsch]

/-- The seat validation when the schedule is missing. -/
theorem validateTotalSeatsUpdate_notFound (store : Store) (pid sid : String)
    (newTotal : Int) (hsch : findSchedule store pid sid = none) :
    validateTotalSeatsUpdate store pid sid newTotal = .schedNotFound := by
  unfold validateTotalSeatsUpdate
  rw [hsch]

/-- C8: an administrative `totalSeats` update is rejected — with no write —
whenever the new value exceeds the fixed venue capacity 48, is less than the
schedule's current total seats, or is less than the current pending+confirmed
reserved seat sum (conjunct 1); consequently every schedule record after the
update either is unchanged or carries the new value, which is at least the
current total seats — the stored total seat count never decreases
(conjunct 2). -/
theorem capacity_guard_no_shrink (store : Store) (pid sid : String) (newTotal : Int) :
    (∀ sch, findSchedule store pid sid = some sch →
      (THEATER_CAPACITY < newTotal ∨ newTotal < sch.totalSeats ∨
        jlt (some newTotal) (getReservedSeatsAdmin store pid sid) = true) →
      (updateScheduleTotalSeats store pid sid newTotal).1 ≠ .ok ∧
      (updateScheduleTotalSeats store pid sid newTotal).2 = store) ∧
    (∀ s' ∈ (updateScheduleTotalSeats store pid sid newTotal).2.schedules,
      s' ∈ store.schedules ∨
      (s'.totalSeats = newTotal ∧
       ∃ sch, findSchedule store pid sid = some sch ∧ sch.totalSeats ≤ newTotal)) := by
  constructor
  · intro sch hsch hbad
    have hval : validateTotalSeatsUpdate store pid sid newTotal ≠ .ok := by
      rw [validateTotalSeatsUpdate_found store pid sid newTotal sch hsch]
      rcases hbad with h | h | h
      · rw [if_pos h]
        exact fun hh => SeatUpdateResult.noConfusion hh
      · by_cases h1 : newTotal > THEATER_CAPACITY
        · rw [if_pos h1]
          exact fun hh => SeatUpdateResult.noConfusion hh
        · rw [if_neg h1, if_pos h]
          exact fun hh => SeatUpdateResult.noConfusion hh
      · by_cases h1 : newTotal > THEATER_CAPACITY
        · rw [if_pos h1]
          exact fun hh => SeatUpdateResult.noConfusion hh
        · by_cases h2 : newTotal < sch.totalSeats
          · rw [if_neg h1, if_pos h2]
            exact fun hh => SeatUpdateResult.noConfusion hh
          · rw [if_neg h1, if_neg h2, if_pos h]
            exact fun hh => SeatUpdateResult.noConfusion hh
    unfold updateScheduleTotalSeats
    cases hv : validateTotalSeatsUpdate store pid sid newTotal
    · exact ⟨fun hh => SeatUpdateResult.noConfusion hh, rfl⟩
    · exact ⟨fun hh => SeatUpdateResult.noConfusion hh, rfl⟩
    · exact ⟨fun hh => SeatUpdateResult.noConfusion hh, rfl⟩
    · exact ⟨fun hh => SeatUpdateResult.noConfusion hh, rfl⟩
    · exact absurd hv hval
  · intro s' hs'
    unfold updateScheduleTotalSeats at hs'
    split at hs'
    · rename_i hok
      simp only [List.mem_map] at hs'
      obtain ⟨s, hs, heq⟩ := hs'
      by_cases h : s.performanceId = pid ∧ s.id = sid
      · rw [if_pos h] at heq
        refine Or.inr ⟨by rw [← heq], ?_⟩
        cases hsch : findSchedule store pid sid with
        | none =>
          rw [validateTotalSeatsUpdate_notFound store pid sid newTotal hsch] at hok
          exact absurd hok (fun hh => SeatUpdateResult.noConfusion hh)
        | some sch =>
          rw [validateTotalSeatsUpdate_found store pid sid newTotal sch hsch] at hok
          refine ⟨sch, rfl, ?_⟩
          by_cases h1 : newTotal > THEATER_CAPACITY
          · rw [if_pos h1] at hok
            exact absurd hok (fun hh => SeatUpdateResult.noConfusion hh)
          · by_cases h2 : newTotal < sch.totalSeats
            · rw [if_neg h1, if_pos h2] at hok
              exact absurd hok (fun hh => SeatUpdateResult.noConfusion hh)
            · omega
      · rw [if_neg h] at heq
        exact Or.inl (heq ▸ hs)
    · exact Or.inl hs'

/-- C8 witness: at the concrete 10-seat schedule, shrinking to 5 is rejected
with no write, and the sweep over the resulting schedule table finds only the
untouched record. -/
theorem capacity_guard_no_shrink_witness :
    (updateScheduleTotalSeats storeW "P1" "S1" 5).1 ≠ .ok ∧
    (updateScheduleTotalSeats storeW "P1" "S1" 5).2 = storeW := by
  have h := capacity_guard_no_shrink storeW "P1" "S1" 5
  exact h.1 schedS1 (by decide) (Or.inr (Or.inl (by decide)))

/-! ## C9 -/

/-- The C9 failing input: a request body with every field present except
`reservedSeats`, which parses to `undefined`. -/
def reqMissingSeats : CreateRequest :=
  { performanceId := "P1", scheduleId := "S1", name := "Carol", email := "c@b.c",
    reservedSeats := none, notes := none }

/-- C9: the validation gate `!performanceId || !scheduleId || !name || !email
|| reservedSeats <= 0` does NOT reject a request whose seat count is missing,
because in JavaScript `undefined <= 0` is `false`; the handler then proceeds
past every storage read and creates a `pending` reservation whose
`reservedSeats` is `undefined` — instead of rejecting the request with a
validation error before any read, as specified. -/
theorem missing_seat_count_not_rejected :
    createInputInvalid reqMissingSeats = false ∧
    (createReservationHandler storeW reqMissingSeats "R9" "C9" 5).1 = .created "R9" "C9" ∧
    (getReservation (createReservationHandler storeW reqMissingSeats "R9" "C9" 5).2
        "R9").map (·.reservedSeats) = some none := by
  decide

/-! ## C10 -/

/-- C10: the public endpoint's `remainingSeats` equals
`max 0 (totalSeats − (pending+confirmed seat sum))` (conjunct 1), so the
reported remaining seat count is never negative, even when the schedule is
oversold (conjunct 2). -/
theorem remaining_seats_clamped (store : Store) (sch : Schedule) (s : Int)
    (hs : reservedSeatsSumPC store sch.performanceId sch.id = some s) :
    formatScheduleRemainingSeats store sch = some (max 0 (sch.totalSeats - s)) ∧
    ∀ m, formatScheduleRemainingSeats store sch = some m → 0 ≤ m := by
  have h1 : formatScheduleRemainingSeats store sch =
      some (max 0 (sch.totalSeats - s)) := by
    unfold formatScheduleRemainingSeats getAvailableSeatsPublic
    rw [hs]
    rfl
  refine ⟨h1, ?_⟩
  intro m hm
  rw [h1] at hm
  injection hm with hm
  rw [← hm]
  exact le_max_left 0 _

/-- C10 witness: the theorem applied to an oversold concrete store — a
12-seat pending reservation against the 10-seat schedule — still reports a
remaining seat count of 0, not −2. -/
theorem remaining_seats_clamped_witness :
    formatScheduleRemainingSeats
        { performances := [perfP1], schedules := [schedS1],
          reservations := [{ resR1 with reservedSeats := some 12 }], attendees := [] }
        schedS1 = some 0 := by
  have h := remaining_seats_clamped
    { performances := [perfP1], schedules := [schedS1],
      reservations := [{ resR1 with reservedSeats := some 12 }], attendees := [] }
    schedS1 12 (by decide)
  rw [h.1]
  decide
